import Mathlib

/-!
Shallow embedding of the rapidtriage Go agent.

Sources embedded here:
- agent/internal/models/emergency.go (situation record, SetTriageCode)
- agent/internal/triage/rule_based_classifier.go (Classify, calculateScore)
- agent/internal/tools/tool.go and the registry (GetApplicable)
- agent/internal/api/emergency_coordinator.go (ProcessEmergency and the
  per-severity dispatch loops)
- agent/internal/tools/hospital/hospital_tool.go (retrying Execute)
- the Gemini model's extractJSONFromText fence stripper
- agent/internal/ai provider (Provider.Model lookup with default fallback)

Conventions: Go float64 fields carry only small exact decimal values in the
code paths studied here, so they are embedded as rationals; Go strings are
embedded as `String` or as `List Char` where the code slices byte-wise;
Go maps used only for lookup are association lists; fallible Go functions
returning `(T, error)` become `Except String T`; in-place mutation through a
pointer becomes explicit state passing (the function returns the updated
record).
-/

namespace RapidTriage

/-- Triage codes are Go string constants (models/emergency.go). The classifier
config's fallback code is an arbitrary string ("" meaning unset), so the type
stays `String` rather than a closed enumeration. -/
abbrev TriageCode := String

def CodeRed : TriageCode := "RED"

def CodeYellow : TriageCode := "YELLOW"

def CodeGreen : TriageCode := "GREEN"

def CodeUnknown : TriageCode := "UNKNOWN"

/-- models.Location. -/
structure Location where
  latitude : ℚ
  longitude : ℚ
  address : String
deriving DecidableEq

/-- models.PatientInfo. -/
structure PatientInfo where
  name : String
  age : Int
  gender : String
  allergies : List String
deriving DecidableEq

/-- models.EmergencySituation. The Go `time.Time` timestamp is opaque to all
code studied here, so it is embedded as an abstract `Nat`. -/
structure EmergencySituation where
  id : String
  description : String
  code : TriageCode
  confidence : ℚ
  location : Option Location
  timestamp : Nat
  patientInfo : Option PatientInfo
  emotionalMarkers : List (String × ℚ)
  keywords : List String
  metadata : List (String × String)
deriving DecidableEq

/-- models.EmergencySituation.SetTriageCode: stores the given code and
confidence, with no validation of either. -/
def SetTriageCode (e : EmergencySituation) (code : TriageCode)
    (confidence : ℚ) : EmergencySituation :=
  { e with code := code, confidence := confidence }

/-- Byte-wise string prefix test, as Go's strings.HasPrefix on the listed
characters. -/
def startsWithL : List Char → List Char → Bool
  | _, [] => true
  | [], _ :: _ => false
  | c :: cs, p :: ps => decide (c = p) && startsWithL cs ps

/-- Go strings.Contains text pat: does pat occur contiguously in text?
(`containsL pat text`). -/
def containsL (pat : List Char) : List Char → Bool
  | [] => startsWithL [] pat
  | c :: cs => startsWithL (c :: cs) pat || containsL pat cs

/-- triage.RuleBasedClassifier. Keyword lists are lowered to character lists
because Go's strings.Contains works on the raw bytes. -/
structure RuleBasedClassifier where
  redKeywords : List (List Char)
  yellowKeywords : List (List Char)
  greenKeywords : List (List Char)
  threshold : ℚ
  fallbackCode : TriageCode

/-- triage.ClassifierConfig (threshold + fallback, the fields read by the
constructor). -/
structure ClassifierConfig where
  threshold : ℚ
  fallbackCode : TriageCode

/-- triage.NewRuleBasedClassifier with the hard-coded keyword tiers from the
source; a zero threshold is replaced by the 0.5 default. -/
def NewRuleBasedClassifier (config : ClassifierConfig) : RuleBasedClassifier :=
  { redKeywords :=
      [("not breathing").toList, ("heart attack").toList, ("stroke").toList,
       ("unconscious").toList, ("severe bleeding").toList, ("choking").toList,
       ("drowning").toList, ("seizure").toList, ("anaphylaxis").toList,
       ("overdose").toList]
    yellowKeywords :=
      [("broken bone").toList, ("deep cut").toList, ("burn").toList,
       ("concussion").toList, ("severe pain").toList, ("high fever").toList,
       ("difficulty breathing").toList, ("chest pain").toList,
       ("allergic reaction").toList]
    greenKeywords :=
      [("minor cut").toList, ("sprain").toList, ("mild fever").toList,
       ("rash").toList, ("cold symptoms").toList, ("ear pain").toList,
       ("sore throat").toList, ("minor burn").toList, ("minor headache").toList]
    threshold := if config.threshold = 0 then 1/2 else config.threshold
    fallbackCode := config.fallbackCode }

/-- triage.RuleBasedClassifier.calculateScore: count the keywords occurring in
the text, divide by the number of keywords (0 when the list is empty). -/
def calculateScore (text : List Char) (keywords : List (List Char)) : ℚ :=
  let matchCount := (keywords.filter (fun k => containsL k text)).length
  if keywords.length = 0 then 0 else (matchCount : ℚ) / (keywords.length : ℚ)

/-- triage.RuleBasedClassifier.Classify. The Go method always returns a nil
error; the `Except` result keeps the three-valued signature visible. -/
def Classify (c : RuleBasedClassifier) (situation : EmergencySituation) :
    Except String (TriageCode × ℚ) :=
  let desc := situation.description.toList.map Char.toLower
  let redScore := calculateScore desc c.redKeywords
  if c.threshold ≤ redScore then .ok (CodeRed, redScore)
  else
    let yellowScore := calculateScore desc c.yellowKeywords
    if c.threshold ≤ yellowScore then .ok (CodeYellow, yellowScore)
    else
      let greenScore := calculateScore desc c.greenKeywords
      if c.threshold ≤ greenScore then .ok (CodeGreen, greenScore)
      else if c.fallbackCode ≠ "" then .ok (c.fallbackCode, 3/10)
      else .ok (CodeUnknown, 0)

/-- tools.ToolResponse. -/
structure ToolResponse where
  toolName : String
  success : Bool
  message : String
  data : List (String × String)
  timestamp : String
deriving DecidableEq

/-- tools.EmergencyTool. A tool's Execute is deterministic given its (mocked)
HTTP client, so it is embedded as a pure fallible function; none of the
repository's tools write to the situation, so Execute takes it read-only. -/
structure EmergencyTool where
  name : String
  isApplicable : EmergencySituation → Bool
  execute : EmergencySituation → Except String ToolResponse

/-- tools.DefaultToolRegistry.GetApplicable: the registered tools, in
registration order, filtered by each tool's applicability predicate. -/
def GetApplicable (registered : List EmergencyTool)
    (s : EmergencySituation) : List EmergencyTool :=
  registered.filter (fun t => t.isApplicable s)

/-- emergency_coordinator.go isHospitalTool. -/
def isHospitalTool (toolName : String) : Bool :=
  toolName = "Hospital Communication Tool"

/-- emergency_coordinator.go isAmbulanceTool. -/
def isAmbulanceTool (toolName : String) : Bool :=
  toolName = "Ambulance Dispatch Tool"

/-- emergency_coordinator.go isBookingTool. -/
def isBookingTool (toolName : String) : Bool :=
  toolName = "Hospital Booking Tool"

/-- emergency_coordinator.go isHospitalOrAmbulanceTool. -/
def isHospitalOrAmbulanceTool (toolName : String) : Bool :=
  isHospitalTool toolName || isAmbulanceTool toolName

/-- The loop body of processRedEmergency over the applicable tools: every
hospital-or-ambulance tool is executed; a failure is skipped (the response is
dropped) and the remaining tools still run. The first component records the
names of the tools executed, the second the collected responses in execution
order. -/
def redLoop (s : EmergencySituation) :
    List EmergencyTool → List String × List ToolResponse
  | [] => ([], [])
  | t :: rest =>
    if isHospitalOrAmbulanceTool t.name then
      let tail := redLoop s rest
      match t.execute s with
      | .error _ => (t.name :: tail.1, tail.2)
      | .ok r => (t.name :: tail.1, r :: tail.2)
    else redLoop s rest

/-- emergency_coordinator.go processRedEmergency (always returns nil error). -/
def processRedEmergency (registered : List EmergencyTool)
    (s : EmergencySituation) :
    List String × List ToolResponse × Except String Unit :=
  let r := redLoop s (GetApplicable registered s)
  (r.1, r.2, .ok ())

/-- The loop body of processYellowEmergency: the first applicable hospital tool
is executed and iteration stops, whether it succeeds (break) or fails (the
error is returned). -/
def yellowLoop (s : EmergencySituation) :
    List EmergencyTool → List String × List ToolResponse × Except String Unit
  | [] => ([], [], .ok ())
  | t :: rest =>
    if isHospitalTool t.name then
      match t.execute s with
      | .error e => ([t.name], [], .error e)
      | .ok r => ([t.name], [r], .ok ())
    else yellowLoop s rest

/-- emergency_coordinator.go processYellowEmergency. -/
def processYellowEmergency (registered : List EmergencyTool)
    (s : EmergencySituation) :
    List String × List ToolResponse × Except String Unit :=
  yellowLoop s (GetApplicable registered s)

/-- The loop body of processGreenEmergency: the first applicable booking tool
is executed and iteration stops. -/
def greenLoop (s : EmergencySituation) :
    List EmergencyTool → List String × List ToolResponse × Except String Unit
  | [] => ([], [], .ok ())
  | t :: rest =>
    if isBookingTool t.name then
      match t.execute s with
      | .error e => ([t.name], [], .error e)
      | .ok r => ([t.name], [r], .ok ())
    else greenLoop s rest

/-- emergency_coordinator.go processGreenEmergency. -/
def processGreenEmergency (registered : List EmergencyTool)
    (s : EmergencySituation) :
    List String × List ToolResponse × Except String Unit :=
  greenLoop s (GetApplicable registered s)

/-- The `switch situation.Code` in ProcessEmergency: pick the per-severity
dispatch routine; any other code (including UNKNOWN) dispatches nothing. The
per-routine error is only logged by the coordinator, so it is dropped here.
Returns (names of executed tools, collected responses). -/
def dispatchTools (registered : List EmergencyTool)
    (s : EmergencySituation) : List String × List ToolResponse :=
  if s.code = CodeRed then
    let r := processRedEmergency registered s
    (r.1, r.2.1)
  else if s.code = CodeYellow then
    let r := processYellowEmergency registered s
    (r.1, r.2.1)
  else if s.code = CodeGreen then
    let r := processGreenEmergency registered s
    (r.1, r.2.1)
  else ([], [])

/-- api.EmergencyResponse (the fields ProcessEmergency populates; the
nearest-facility lists are filled in later by the HTTP handler, not here). -/
structure EmergencyResponse where
  emergencyID : String
  code : TriageCode
  summary : String
  timestamp : String
  toolResponses : List ToolResponse

/-- The simplified fallback summary ProcessEmergency builds when the summary
generator fails: "Emergency: <desc> (Code <code>). Confidence: <conf>". Go
renders the confidence with %.2f; the rendering detail is irrelevant to every
claim, so the rational is printed directly. -/
def fallbackSummaryText (s : EmergencySituation) : String :=
  "Emergency: " ++ s.description ++ " (Code " ++ s.code ++ "). Confidence: "
    ++ toString s.confidence

/-- The tail of ProcessEmergency after classification: dispatch by severity,
generate the summary (falling back on failure), and build the response.
This part can never fail. -/
def processClassified (registered : List EmergencyTool)
    (genSummary : EmergencySituation → List ToolResponse → Except String String)
    (now : String) (s : EmergencySituation) : Except String EmergencyResponse :=
  let responses := (dispatchTools registered s).2
  let summary :=
    match genSummary s responses with
    | .ok text => text
    | .error _ => fallbackSummaryText s
  .ok { emergencyID := s.id, code := s.code, summary := summary,
        timestamp := now, toolResponses := responses }

/-- api.EmergencyCoordinator.ProcessEmergency. The classifier and summary
generator are the coordinator's injected dependencies; `now` stands for the
wall-clock timestamp. The Go method mutates the situation in place through a
pointer (only via SetTriageCode), so the embedding returns the final situation
state alongside the result. -/
def ProcessEmergency
    (classifier : EmergencySituation → Except String (TriageCode × ℚ))
    (registered : List EmergencyTool)
    (genSummary : EmergencySituation → List ToolResponse → Except String String)
    (now : String) (s : EmergencySituation) :
    Except String EmergencyResponse × EmergencySituation :=
  if s.code = CodeUnknown then
    match classifier s with
    | .error e => (.error ("failed to classify emergency: " ++ e), s)
    | .ok (code, confidence) =>
      let s1 := SetTriageCode s code confidence
      (processClassified registered genSummary now s1, s1)
  else (processClassified registered genSummary now s, s)

/-- hospital.HTTPResponse: the status code, and the body abstracted to its
json.Unmarshal outcome (`none` when the body does not parse as a string map,
`some data` when it parses to `data`). -/
structure HTTPResponse where
  statusCode : Nat
  body : Option (List (String × String))
deriving DecidableEq

/-- The retry loop of hospital.HospitalTool.Execute (identical in the location
tool). `doCall i` is the mocked client's outcome on the i-th call. Counting
down `fuel` = RetryAttempts - attempt mirrors `for attempt := 0; attempt <
RetryAttempts; attempt++`. Returns (number of attempts performed, the backoff
sleeps in milliseconds in order — Go sleeps attempt*attempt*100 ms after every
failed attempt, including the last —, and the last call's outcome). The fuel-0
base case is the degenerate RetryAttempts ≤ 0 configuration in which the loop
never runs (Go would then dereference a nil response). -/
def retryLoop (doCall : Nat → Except String HTTPResponse) :
    Nat → Nat → Nat × List Nat × Except String HTTPResponse
  | _, 0 => (0, [], .error ("no attempt made"))
  | attempt, fuel + 1 =>
    let r := doCall attempt
    let succeeded :=
      match r with
      | .ok resp => 200 ≤ resp.statusCode && resp.statusCode < 300
      | .error _ => false
    if succeeded then (1, [], r)
    else
      let sleepMs := attempt * attempt * 100
      if fuel = 0 then (1, [sleepMs], r)
      else
        let tail := retryLoop doCall (attempt + 1) fuel
        (tail.1 + 1, sleepMs :: tail.2.1, tail.2.2)

/-- hospital.HospitalTool.Execute from the retry loop on: run the loop, then
fail on a transport error or a non-2xx status or an unparseable body, and
otherwise return the success ToolResponse the source builds. The caller's
context is NOT consulted anywhere in the Go method (the client interface does
not even receive it), which `hospitalExecuteCtx` below makes explicit.
Returns (attempts performed, backoff sleeps in ms, result). -/
def hospitalExecute (retryAttempts : Nat)
    (doCall : Nat → Except String HTTPResponse) :
    Nat × List Nat × Except String ToolResponse :=
  let r := retryLoop doCall 0 retryAttempts
  match r.2.2 with
  | .error e => (r.1, r.2.1, .error ("failed to communicate with hospital API: " ++ e))
  | .ok resp =>
    if resp.statusCode < 200 || 300 ≤ resp.statusCode then
      (r.1, r.2.1, .error ("hospital API returned status code"))
    else
      match resp.body with
      | none => (r.1, r.2.1, .error ("failed to parse hospital API response"))
      | some data =>
        (r.1, r.2.1,
         .ok { toolName := "Hospital Communication Tool", success := true,
               message := "Successfully communicated emergency to hospital",
               data := data, timestamp := "" })

/-- hospital.HospitalTool.Execute with its context parameter made explicit:
`ctxCanceled` says whether the caller's context is already canceled. The Go
body never reads ctx — neither the retry loop nor the HTTPClient.Do call (whose
request type carries no context) can observe cancellation — so the embedding
discards the flag, exactly as the source does. -/
def hospitalExecuteCtx (_ctxCanceled : Bool) (retryAttempts : Nat)
    (doCall : Nat → Except String HTTPResponse) :
    Nat × List Nat × Except String ToolResponse :=
  hospitalExecute retryAttempts doCall

/-- ASCII whitespace, the fragment of Go's unicode.IsSpace exercised by the
fence-stripping code paths. -/
def isSpaceC (c : Char) : Bool :=
  decide (c = ' ') || decide (c = '\t') || decide (c = '\n') ||
    decide (c = '\r') || decide (c = (Char.ofNat 11)) || decide (c = (Char.ofNat 12))

/-- Go strings.TrimSpace on the listed characters. -/
def trimSpaceL (l : List Char) : List Char :=
  ((l.dropWhile isSpaceC).reverse.dropWhile isSpaceC).reverse

/-- Byte-wise string suffix test, as Go's strings.HasSuffix. -/
def endsWithL (l pat : List Char) : Bool :=
  startsWithL l.reverse pat.reverse

/-- Remove the last n characters, as the upper bound of a Go slice
expression text[k:len-n]. -/
def dropLastN (n : Nat) (l : List Char) : List Char :=
  l.take (l.length - n)

/-- The Gemini model's extractJSONFromText: trim, strip a ```json fence, else
strip a generic ``` fence, else return the trimmed text as is (both the
already-JSON branch and the final fallthrough return `text` unchanged).
`text[7:len-3]` becomes drop 7 / dropLast 3, and likewise for the generic
fence. -/
def extractJSONFromText (text0 : List Char) : List Char :=
  let text := trimSpaceL text0
  if startsWithL text ("```json").toList && endsWithL text ("```").toList then
    trimSpaceL (dropLastN 3 (text.drop 7))
  else if startsWithL text ("```").toList && endsWithL text ("```").toList then
    trimSpaceL (dropLastN 3 (text.drop 3))
  else text

/-- ai.Model, reduced to its identity: the interface's behavioural methods are
network calls irrelevant to the provider-lookup claim. -/
structure Model where
  modelType : String
  modelName : String
deriving DecidableEq

/-- ai.Provider: the default model plus the registry map, embedded as an
association list keyed by the model-type string. -/
structure Provider where
  defaultModel : Model
  models : List (String × Model)

/-- ai.NewProvider: create the default model through the factory and seed the
registry with it. -/
def NewProvider (getModel : String → Except String Model)
    (defaultModelType : String) : Except String Provider :=
  match getModel defaultModelType with
  | .error e => .error ("failed to create default model: " ++ e)
  | .ok m => .ok { defaultModel := m, models := [(defaultModelType, m)] }

/-- ai.Provider.Model: the registered model for the type when present,
otherwise silently the default model. Total — it can neither return nil nor
signal an error. -/
def Provider.Model (p : Provider) (modelType : String) : Model :=
  match p.models.lookup modelType with
  | some m => m
  | none => p.defaultModel

/-! Concrete instances used to exercise the theorems below. -/

/-- A minimal situation record (fields as models.NewEmergencySituation would
initialize them, with a fixed id and timestamp). -/
def baseSituation : EmergencySituation :=
  { id := "emergency-1", description := "a", code := CodeUnknown,
    confidence := 0, location := none, timestamp := 0, patientInfo := none,
    emotionalMarkers := [], keywords := [], metadata := [] }

/-- A RED situation with a location, as in spec Scenario A. -/
def redSituation : EmergencySituation :=
  { baseSituation with
    code := CodeRed
    location := some { latitude := 1, longitude := 2, address := "x" } }

/-- A canned successful tool response. -/
def cannedResponse (n msg : String) : ToolResponse :=
  { toolName := n, success := true, message := msg, data := [], timestamp := "" }

/-- The hospital tool with a mocked always-succeeding client: applicable to
every situation (hospital_tool.go IsApplicable returns true). -/
def demoHospitalTool : EmergencyTool :=
  { name := "Hospital Communication Tool", isApplicable := fun _ => true,
    execute := fun _ => .ok (cannedResponse ("Hospital Communication Tool") ("ok")) }

/-- The ambulance tool: applicable iff the code is RED and a location is
present (ambulance_tool.go IsApplicable). -/
def demoAmbulanceTool : EmergencyTool :=
  { name := "Ambulance Dispatch Tool",
    isApplicable := fun s => decide (s.code = CodeRed) && s.location.isSome,
    execute := fun _ => .ok (cannedResponse ("Ambulance Dispatch Tool") ("ok")) }

/-- The booking tool: applicable iff the code is GREEN (part of the booking
package). -/
def demoBookingTool : EmergencyTool :=
  { name := "Hospital Booking Tool",
    isApplicable := fun s => decide (s.code = CodeGreen),
    execute := fun _ => .ok (cannedResponse ("Hospital Booking Tool") ("ok")) }

/-- A hospital tool whose Execute fails (mocking a client that keeps
failing). -/
def hospitalFailingTool (msg : String) : EmergencyTool :=
  { name := "Hospital Communication Tool", isApplicable := fun _ => true,
    execute := fun _ => .error msg }

/-- An ambulance tool whose Execute returns the given response, applicable
everywhere. -/
def ambulanceRespondingTool (r : ToolResponse) : EmergencyTool :=
  { name := "Ambulance Dispatch Tool", isApplicable := fun _ => true,
    execute := fun _ => .ok r }

/-- A tiny classifier instance: one red keyword, no others, threshold 1/2,
no fallback. -/
def tinyClassifier : RuleBasedClassifier :=
  { redKeywords := [['a']], yellowKeywords := [], greenKeywords := [],
    threshold := 1/2, fallbackCode := "" }

/-- A mocked HTTP client answering 429 on the first call and 200 with a
parseable body afterwards (spec Scenario D). -/
def client429then200 : Nat → Except String HTTPResponse :=
  fun i =>
    if i = 0 then .ok { statusCode := 429, body := some [] }
    else .ok { statusCode := 200, body := some [("status", "ok")] }

/-- A mocked HTTP client answering 500 on every call. -/
def clientAlways500 : Nat → Except String HTTPResponse :=
  fun _ => .ok { statusCode := 500, body := none }

/-- A classifier stub for coordinator runs that never classify. -/
def stubClassifier : EmergencySituation → Except String (TriageCode × ℚ) :=
  fun _ => .ok (CodeYellow, 4/5)

/-- A summary generator stub that always fails, exercising the fallback
summary. -/
def failingSummaryGen :
    EmergencySituation → List ToolResponse → Except String String :=
  fun _ _ => .error ("summary backend down")

/-- The ```json-fenced form of the structured content from the round-trip
property. -/
def fencedJSON : List Char := ("```json\n\x7b\"a\":1\x7d\n```").toList

/-- The same structured content wrapped in a generic ``` code fence. -/
def genericFencedJSON : List Char := ("```\n\x7b\"a\":1\x7d\n```").toList

/-- The unwrapped structured content. -/
def plainJSON : List Char := ("\x7b\"a\":1\x7d").toList

/-- A concrete provider: a default Gemini model registered under its type. -/
def demoGeminiModel : Model := { modelType := "gemini", modelName := "gemini-2.0-flash" }

/-- The provider NewProvider builds for the demo model. -/
def demoProvider : Provider :=
  { defaultModel := demoGeminiModel, models := [("gemini", demoGeminiModel)] }

/-! Helper lemmas about the dispatch loops. -/

/-- The RED loop executes exactly the hospital-or-ambulance tools among the
applicable ones, in order, regardless of execution outcomes. -/
theorem redLoop_fst (s : EmergencySituation) (l : List EmergencyTool) :
    (redLoop s l).1 =
      (l.filter (fun t => isHospitalOrAmbulanceTool t.name)).map
        (fun t => t.name) := by
  induction l with
  | nil => rfl
  | cons t rest ih =>
    by_cases h : isHospitalOrAmbulanceTool t.name
    · cases hr : t.execute s <;>
        simp [redLoop, h, hr, List.filter_cons, ih]
    · simp [redLoop, h, List.filter_cons, ih]

/-- The YELLOW loop executes exactly the first applicable hospital tool. -/
theorem yellowLoop_fst (s : EmergencySituation) (l : List EmergencyTool) :
    (yellowLoop s l).1 =
      ((l.filter (fun t => isHospitalTool t.name)).map
        (fun t => t.name)).take 1 := by
  induction l with
  | nil => rfl
  | cons t rest ih =>
    by_cases h : isHospitalTool t.name
    · cases hr : t.execute s <;> simp [yellowLoop, h, hr, List.filter_cons]
    · simp [yellowLoop, h, List.filter_cons, ih]

/-- The GREEN loop executes exactly the first applicable booking tool. -/
theorem greenLoop_fst (s : EmergencySituation) (l : List EmergencyTool) :
    (greenLoop s l).1 =
      ((l.filter (fun t => isBookingTool t.name)).map
        (fun t => t.name)).take 1 := by
  induction l with
  | nil => rfl
  | cons t rest ih =>
    by_cases h : isBookingTool t.name
    · cases hr : t.execute s <;> simp [greenLoop, h, hr, List.filter_cons]
    · simp [greenLoop, h, List.filter_cons, ih]

/-- Claim C1: dispatch follows the severity policy exactly — RED executes
every applicable hospital-or-ambulance tool; YELLOW executes only the first
applicable hospital tool; GREEN executes only the first applicable booking
tool; any other code (including UNKNOWN) executes no tool. -/
theorem dispatch_severity_policy (registered : List EmergencyTool)
    (s : EmergencySituation) :
    (s.code = CodeRed →
      (dispatchTools registered s).1 =
        ((GetApplicable registered s).filter
          (fun t => isHospitalOrAmbulanceTool t.name)).map (fun t => t.name)) ∧
    (s.code = CodeYellow →
      (dispatchTools registered s).1 =
        (((GetApplicable registered s).filter
          (fun t => isHospitalTool t.name)).map (fun t => t.name)).take 1) ∧
    (s.code = CodeGreen →
      (dispatchTools registered s).1 =
        (((GetApplicable registered s).filter
          (fun t => isBookingTool t.name)).map (fun t => t.name)).take 1) ∧
    (s.code ≠ CodeRed → s.code ≠ CodeYellow → s.code ≠ CodeGreen →
      (dispatchTools registered s).1 = []) := by
  refine ⟨fun h => ?_, fun h => ?_, fun h => ?_, fun h1 h2 h3 => ?_⟩
  · simp [dispatchTools, h, CodeRed, processRedEmergency, redLoop_fst]
  · simp [dispatchTools, h, CodeRed, CodeYellow, processYellowEmergency,
      yellowLoop_fst]
  · simp [dispatchTools, h, CodeRed, CodeYellow, CodeGreen,
      processGreenEmergency, greenLoop_fst]
  · simp [dispatchTools, h1, h2, h3]

/-- Witness for C1 at a concrete input: a RED situation with a location, with
the hospital, ambulance and booking tools registered, executes exactly the
hospital and ambulance tools. -/
theorem dispatch_severity_policy_witness :
    (dispatchTools [demoHospitalTool, demoAmbulanceTool, demoBookingTool]
      redSituation).1 =
      ["Hospital Communication Tool", "Ambulance Dispatch Tool"] :=
  ((dispatch_severity_policy
      [demoHospitalTool, demoAmbulanceTool, demoBookingTool]
      redSituation).1 rfl).trans (by rfl)

/-- A classifier with no keywords at all, threshold 1/2, no fallback. -/
def emptyClassifier : RuleBasedClassifier :=
  { redKeywords := [], yellowKeywords := [], greenKeywords := [],
    threshold := 1/2, fallbackCode := "" }

/-- With no keywords configured, every situation classifies to the
no-fallback outcome (UNKNOWN, 0). -/
theorem classify_empty (s : EmergencySituation) :
    Classify emptyClassifier s = .ok (CodeUnknown, 0) := by
  simp only [Classify, emptyClassifier, calculateScore]
  norm_num

/-- Claim C2: Classify scores each tier as matched-keyword count over
tier-keyword count on the lowercased description, checks RED then YELLOW then
GREEN, returns the first tier reaching the threshold with its score and no
error (RED wins whenever its score reaches the threshold, irrespective of the
other scores), and otherwise returns the configured fallback at confidence
3/10, or (UNKNOWN, 0) when no fallback is configured. -/
theorem classify_policy (c : RuleBasedClassifier) (s : EmergencySituation)
    (rS yS gS : ℚ)
    (hr : rS = calculateScore (s.description.toList.map Char.toLower) c.redKeywords)
    (hy : yS = calculateScore (s.description.toList.map Char.toLower) c.yellowKeywords)
    (hg : gS = calculateScore (s.description.toList.map Char.toLower) c.greenKeywords) :
    (∀ kws, calculateScore (s.description.toList.map Char.toLower) kws =
      ((kws.countP fun k =>
          containsL k (s.description.toList.map Char.toLower)) : ℚ) /
        (kws.length : ℚ)) ∧
    (c.threshold ≤ rS → Classify c s = .ok (CodeRed, rS)) ∧
    (rS < c.threshold → c.threshold ≤ yS →
      Classify c s = .ok (CodeYellow, yS)) ∧
    (rS < c.threshold → yS < c.threshold → c.threshold ≤ gS →
      Classify c s = .ok (CodeGreen, gS)) ∧
    (rS < c.threshold → yS < c.threshold → gS < c.threshold →
      c.fallbackCode ≠ "" → Classify c s = .ok (c.fallbackCode, 3/10)) ∧
    (rS < c.threshold → yS < c.threshold → gS < c.threshold →
      c.fallbackCode = "" → Classify c s = .ok (CodeUnknown, 0)) := by
  subst hr hy hg
  refine ⟨fun kws => ?_, fun h1 => ?_, fun h1 h2 => ?_, fun h1 h2 h3 => ?_,
    fun h1 h2 h3 h4 => ?_, fun h1 h2 h3 h4 => ?_⟩
  · simp only [calculateScore, List.countP_eq_length_filter]
    rcases Nat.eq_zero_or_pos kws.length with h0 | hpos
    · have he : kws = [] := List.length_eq_zero.mp h0
      subst he; simp
    · rw [if_neg (by omega)]
  · simp only [Classify]
    rw [if_pos h1]
  · simp only [Classify]
    rw [if_neg (not_le.mpr h1), if_pos h2]
  · simp only [Classify]
    rw [if_neg (not_le.mpr h1), if_neg (not_le.mpr h2), if_pos h3]
  · simp only [Classify]
    rw [if_neg (not_le.mpr h1), if_neg (not_le.mpr h2),
      if_neg (not_le.mpr h3), if_pos h4]
  · simp only [Classify]
    rw [if_neg (not_le.mpr h1), if_neg (not_le.mpr h2),
      if_neg (not_le.mpr h3), if_neg (by simp [h4])]

/-- Witness for C2 at a concrete input: one red keyword "a" matched by
description "a" gives score 1 ≥ 1/2, so the classifier answers (RED, 1). -/
theorem classify_policy_witness :
    Classify tinyClassifier baseSituation = .ok (CodeRed, 1) := by
  have hr : (1:ℚ) = calculateScore
      (baseSituation.description.toList.map Char.toLower)
      tinyClassifier.redKeywords := by
    simp [calculateScore, containsL, startsWithL, baseSituation, tinyClassifier,
      show ("a").toList = ['a'] from rfl,
      show Char.toLower 'a' = 'a' from rfl]
  have hy : (0:ℚ) = calculateScore
      (baseSituation.description.toList.map Char.toLower)
      tinyClassifier.yellowKeywords := by
    simp [calculateScore, tinyClassifier]
  have hg : (0:ℚ) = calculateScore
      (baseSituation.description.toList.map Char.toLower)
      tinyClassifier.greenKeywords := by
    simp [calculateScore, tinyClassifier]
  exact (classify_policy tinyClassifier baseSituation 1 0 0 hr hy hg).2.1
    (by norm_num [tinyClassifier])

/-- Every score calculateScore produces lies in the unit interval. -/
theorem calculateScore_mem_unit (text : List Char)
    (kws : List (List Char)) :
    0 ≤ calculateScore text kws ∧ calculateScore text kws ≤ 1 := by
  simp only [calculateScore]
  rcases Nat.eq_zero_or_pos kws.length with h0 | hpos
  · simp [h0]
  · rw [if_neg (by omega)]
    have hlen : (0:ℚ) < (kws.length : ℚ) := by exact_mod_cast hpos
    constructor
    · positivity
    · rw [div_le_one hlen]
      exact_mod_cast List.length_filter_le _ _

/-- Claim C4 (amended): every confidence the rule-based classifier returns
lies in [0,1], but SetTriageCode (and hence the processor extraction, which
stores the model-reported confidence through it) stores its argument without
validation. -/
theorem confidence_written_values (c : RuleBasedClassifier)
    (s e : EmergencySituation) (code : TriageCode) (conf : ℚ) :
    (∀ p, Classify c s = .ok p → 0 ≤ p.2 ∧ p.2 ≤ 1) ∧
    (SetTriageCode e code conf).confidence = conf := by
  refine ⟨fun p hp => ?_, rfl⟩
  simp only [Classify] at hp
  split_ifs at hp with h1 h2 h3 h4 <;>
    simp only [Except.ok.injEq] at hp <;> subst hp
  · exact calculateScore_mem_unit _ _
  · exact calculateScore_mem_unit _ _
  · exact calculateScore_mem_unit _ _
  · norm_num
  · norm_num

/-- Witness for C4 (amended) at a concrete input: the keywordless classifier
answers confidence 0, inside [0,1], and SetTriageCode stores 1/2 verbatim. -/
theorem confidence_written_values_witness :
    ((0:ℚ) ≤ 0 ∧ (0:ℚ) ≤ 1) ∧
    (SetTriageCode baseSituation CodeRed (1/2)).confidence = 1/2 :=
  ⟨(confidence_written_values emptyClassifier baseSituation baseSituation
      CodeRed (1/2)).1 (CodeUnknown, 0) (classify_empty baseSituation),
   (confidence_written_values emptyClassifier baseSituation baseSituation
      CodeRed (1/2)).2⟩

/-- Counterexample to C4 as stated: SetTriageCode stores confidence 3/2
unvalidated, leaving Situation.Confidence outside [0,1]. -/
theorem confidence_invariant_counterexample :
    ¬ (0 ≤ (SetTriageCode baseSituation CodeRed (3/2)).confidence ∧
       (SetTriageCode baseSituation CodeRed (3/2)).confidence ≤ 1) := by
  intro h
  have h2 := h.2
  simp only [SetTriageCode] at h2
  norm_num at h2

/-- Claim C9: ProcessEmergency mutates at most Code and Confidence, and the
situation is returned unchanged whenever its code was already concrete at
entry. -/
theorem process_emergency_frame
    (classifier : EmergencySituation → Except String (TriageCode × ℚ))
    (registered : List EmergencyTool)
    (genSummary : EmergencySituation → List ToolResponse → Except String String)
    (now : String) (s : EmergencySituation) :
    ((ProcessEmergency classifier registered genSummary now s).2.id = s.id ∧
     (ProcessEmergency classifier registered genSummary now s).2.description = s.description ∧
     (ProcessEmergency classifier registered genSummary now s).2.location = s.location ∧
     (ProcessEmergency classifier registered genSummary now s).2.timestamp = s.timestamp ∧
     (ProcessEmergency classifier registered genSummary now s).2.patientInfo = s.patientInfo ∧
     (ProcessEmergency classifier registered genSummary now s).2.emotionalMarkers = s.emotionalMarkers ∧
     (ProcessEmergency classifier registered genSummary now s).2.keywords = s.keywords ∧
     (ProcessEmergency classifier registered genSummary now s).2.metadata = s.metadata) ∧
    (s.code ≠ CodeUnknown →
      (ProcessEmergency classifier registered genSummary now s).2 = s) := by
  by_cases h : s.code = CodeUnknown
  · cases hc : classifier s with
    | error e =>
      simp [ProcessEmergency, h, hc]
    | ok p =>
      refine ⟨?_, fun hne => absurd h hne⟩
      simp [ProcessEmergency, h, hc, SetTriageCode]
  · simp [ProcessEmergency, h]

/-- Witness for C9 at a concrete input: a RED situation passes through the
coordinator (with the three demo tools) unchanged. -/
theorem process_emergency_frame_witness :
    (ProcessEmergency stubClassifier
      [demoHospitalTool, demoAmbulanceTool, demoBookingTool]
      failingSummaryGen ("now") redSituation).2 = redSituation :=
  (process_emergency_frame stubClassifier
    [demoHospitalTool, demoAmbulanceTool, demoBookingTool]
    failingSummaryGen ("now") redSituation).2 (by decide)

/-- Claim C10: ProcessEmergency succeeds (returns a response, no error)
whenever the code is already concrete at entry or the classifier succeeds;
and its only error path is a classifier failure on an UNKNOWN-coded
situation. -/
theorem process_emergency_total
    (classifier : EmergencySituation → Except String (TriageCode × ℚ))
    (registered : List EmergencyTool)
    (genSummary : EmergencySituation → List ToolResponse → Except String String)
    (now : String) (s : EmergencySituation) :
    (s.code ≠ CodeUnknown →
      ∃ resp, (ProcessEmergency classifier registered genSummary now s).1 = .ok resp) ∧
    (∀ p, classifier s = .ok p →
      ∃ resp, (ProcessEmergency classifier registered genSummary now s).1 = .ok resp) ∧
    (∀ e, (ProcessEmergency classifier registered genSummary now s).1 = .error e →
      s.code = CodeUnknown ∧
        ∃ msg, classifier s = .error msg ∧
          e = "failed to classify emergency: " ++ msg) := by
  by_cases h : s.code = CodeUnknown
  · cases hc : classifier s with
    | error msg =>
      refine ⟨fun hne => absurd h hne, fun p hp => ?_, fun e he => ?_⟩
      · simp at hp
      · simp only [ProcessEmergency, h, if_pos, hc] at he
        exact ⟨h, msg, rfl, by simpa using he.symm⟩
    | ok p =>
      refine ⟨fun hne => absurd h hne, fun q hq => ?_, fun e he => ?_⟩
      · simp [ProcessEmergency, h, hc, processClassified]
      · simp [ProcessEmergency, h, hc, processClassified] at he
  · refine ⟨fun _ => ?_, fun q hq => ?_, fun e he => ?_⟩
    · simp [ProcessEmergency, h, processClassified]
    · simp [ProcessEmergency, h, processClassified]
    · simp [ProcessEmergency, h, processClassified] at he

/-- Witness for C10 at a concrete input: an UNKNOWN situation with a
succeeding classifier yields a successful response. -/
theorem process_emergency_total_witness :
    ∃ resp, (ProcessEmergency stubClassifier
      [demoHospitalTool, demoAmbulanceTool, demoBookingTool]
      failingSummaryGen ("now") baseSituation).1 = .ok resp :=
  (process_emergency_total stubClassifier
    [demoHospitalTool, demoAmbulanceTool, demoBookingTool]
    failingSummaryGen ("now") baseSituation).2.1 (CodeYellow, 4/5) rfl

/-- Claim C3: in a RED dispatch where the hospital tool fails and the
ambulance tool succeeds, the failure is dropped from the results, the sibling
still runs, the response list is exactly the ambulance's response, and
ProcessEmergency still succeeds. -/
theorem red_partial_failure (msg : String) (r : ToolResponse)
    (classifier : EmergencySituation → Except String (TriageCode × ℚ))
    (genSummary : EmergencySituation → List ToolResponse → Except String String)
    (now : String) (s : EmergencySituation) (h : s.code = CodeRed) :
    ∃ resp,
      (ProcessEmergency classifier
        [hospitalFailingTool msg, ambulanceRespondingTool r]
        genSummary now s).1 = .ok resp ∧
      resp.toolResponses = [r] := by
  have hne : s.code ≠ CodeUnknown := by rw [h]; decide
  simp only [ProcessEmergency, if_neg hne, processClassified, dispatchTools,
    if_pos h, processRedEmergency, GetApplicable, hospitalFailingTool,
    ambulanceRespondingTool, redLoop, List.filter, isHospitalOrAmbulanceTool,
    isHospitalTool, isAmbulanceTool]
  exact ⟨_, rfl, rfl⟩

/-- Witness for C3 at a concrete input. -/
theorem red_partial_failure_witness :
    ∃ resp,
      (ProcessEmergency stubClassifier
        [hospitalFailingTool ("hospital API down"),
         ambulanceRespondingTool (cannedResponse ("Ambulance Dispatch Tool") ("ok"))]
        failingSummaryGen ("now") redSituation).1 = .ok resp ∧
      resp.toolResponses = [cannedResponse ("Ambulance Dispatch Tool") ("ok")] :=
  red_partial_failure ("hospital API down")
    (cannedResponse ("Ambulance Dispatch Tool") ("ok"))
    stubClassifier failingSummaryGen ("now") redSituation rfl

/-- Claim C5 (amended): with 3 configured retry attempts and a client
answering 429 then 200 (with a parseable body), Execute performs exactly 2
attempts, sleeps 0 ms between them (the contract is attempt² × 100 ms with
attempt counted from 0, so the sleep after the failed attempt 0 is 0 ms, not
100 ms), and the final ToolResponse has Success = true. -/
theorem retry_429_then_200 (resp0 resp1 : HTTPResponse)
    (doCall : Nat → Except String HTTPResponse)
    (data : List (String × String))
    (h0 : doCall 0 = .ok resp0) (h0s : resp0.statusCode = 429)
    (h1 : doCall 1 = .ok resp1) (h1s : resp1.statusCode = 200)
    (h1b : resp1.body = some data) :
    hospitalExecute 3 doCall =
      (2, [0],
       .ok { toolName := "Hospital Communication Tool", success := true,
             message := "Successfully communicated emergency to hospital",
             data := data, timestamp := "" }) := by
  simp [hospitalExecute, retryLoop, h0, h0s, h1, h1s, h1b]

/-- Witness for C5 (amended) at the concrete mocked client. -/
theorem retry_429_then_200_witness :
    hospitalExecute 3 client429then200 =
      (2, [0],
       .ok { toolName := "Hospital Communication Tool", success := true,
             message := "Successfully communicated emergency to hospital",
             data := [("status", "ok")], timestamp := "" }) :=
  retry_429_then_200 { statusCode := 429, body := some [] }
    { statusCode := 200, body := some [("status", "ok")] }
    client429then200 [("status", "ok")] rfl rfl rfl rfl rfl

/-- Counterexample to C5 as stated: on the 429-then-200 client the single
inter-attempt backoff slept is 0 ms (attempt 0 squared times 100 ms), not
approximately 100 ms. -/
theorem retry_backoff_counterexample :
    (hospitalExecute 3 client429then200).1 = 2 ∧
    (hospitalExecute 3 client429then200).2.1 = [0] ∧
    (hospitalExecute 3 client429then200).2.1 ≠ [100] := by
  refine ⟨rfl, rfl, by decide⟩

/-- Claim C7 (the code violates it): the retry loop never consults the
caller's context — with an already-canceled context, a 3-attempt dispatch
against an always-failing client still performs all 3 attempts and sleeps
0, 100 and 400 ms; the outcome is identical for canceled and live contexts. -/
theorem canceled_context_still_sleeps :
    (hospitalExecuteCtx true 3 clientAlways500).1 = 3 ∧
    (hospitalExecuteCtx true 3 clientAlways500).2.1 = [0, 100, 400] ∧
    (∀ b, hospitalExecuteCtx b 3 clientAlways500 =
      hospitalExecute 3 clientAlways500) :=
  ⟨rfl, rfl, fun _ => rfl⟩

/-- Claim C6: stripping the ```json fence — and likewise the generic ```
fence — from the fenced forms of the structured content yields exactly the
unwrapped form (hence all parse to the same JSON value); a trimmed text
starting with a brace or bracket is passed through unchanged. -/
theorem json_fence_roundtrip :
    (extractJSONFromText fencedJSON = plainJSON ∧
     extractJSONFromText genericFencedJSON = plainJSON ∧
     extractJSONFromText plainJSON = plainJSON) ∧
    (∀ cs, trimSpaceL ('\x7b' :: cs) = '\x7b' :: cs →
      extractJSONFromText ('\x7b' :: cs) = '\x7b' :: cs) ∧
    (∀ cs, trimSpaceL ('[' :: cs) = '[' :: cs →
      extractJSONFromText ('[' :: cs) = '[' :: cs) := by
  refine ⟨⟨by decide, by decide, by decide⟩, fun cs h => ?_, fun cs h => ?_⟩
  · simp only [extractJSONFromText]
    rw [h]
    rfl
  · simp only [extractJSONFromText]
    rw [h]
    rfl

/-- Witness for C6 at a concrete input: "[1]" (already JSON, no fences) is
returned unchanged. -/
theorem json_fence_roundtrip_witness :
    extractJSONFromText ('[' :: ("1]").toList) = '[' :: ("1]").toList :=
  json_fence_roundtrip.2.2 (("1]").toList) (by decide)

/-- Claim C8: Provider.Model returns the registered model for the type when
one exists and silently falls back to the default model otherwise; being
total, it can neither return nil nor signal an error. -/
theorem provider_model_fallback (p : Provider) (t : String) :
    (∀ m, p.models.lookup t = some m → p.Model t = m) ∧
    (p.models.lookup t = none → p.Model t = p.defaultModel) := by
  constructor
  · intro m hm
    simp [Provider.Model, hm]
  · intro hn
    simp [Provider.Model, hn]

/-- Witness for C8 at a concrete provider: the registered type resolves to
its model, an unknown type falls back to the default. -/
theorem provider_model_fallback_witness :
    demoProvider.Model ("gemini") = demoGeminiModel ∧
    demoProvider.Model ("openai") = demoProvider.defaultModel :=
  ⟨(provider_model_fallback demoProvider ("gemini")).1 demoGeminiModel rfl,
   (provider_model_fallback demoProvider ("openai")).2 rfl⟩

end RapidTriage
